import Mathlib

/-!
Verification development for the xclipp selection server (src/main.cpp,
src/clipper.cpp, src/clipper.hpp, src/utils.cpp, src/utils.hpp).

Shallow embedding conventions:
- bytes are `Nat` values below 256, byte buffers are `List Nat`;
- X atoms, windows and timestamps are `Nat` (server-assigned identifiers);
- `size_t` arithmetic is `Nat` with explicit reduction modulo `2 ^ 64`
  where the C code can wrap;
- the wire session is modelled as error-free: the unchecked/checked XCB
  request distinction only matters for X protocol failures, which are
  external to the algorithms under verification.  Side effects performed
  through the connection are reified as an `Action` list.
-/

namespace Xclipp

/- Protocol constants from xcb/xproto.h used by the source. -/

def XCB_ATOM_NONE : Nat := 0

def XCB_CURRENT_TIME : Nat := 0

def XCB_ATOM_ATOM : Nat := 4

def XCB_ATOM_INTEGER : Nat := 19

/- ---------------------------------------------------------------------
   utils.cpp
   --------------------------------------------------------------------- -/

/-- `is_icccm_string` (src/utils.cpp:65-69): every byte must be a
non-control ISO Latin-1 character or `\n` (10) or `\t` (9).  The C
lambda receives the byte as `unsigned char`, so the comparisons are on
the value 0..255. -/
def is_icccm_string (data : List Nat) : Bool :=
  data.all fun c =>
    (decide (0x20 ≤ c) && decide (c ≤ 0x7E)) || decide (0xA0 ≤ c) || (c == 10) || (c == 9)

/-- The `min_value` table of `is_icccm_utf8_string` (src/utils.cpp:125).
The fourth entry is the C literal `010000`, which is octal, hence 4096. -/
def min_value : Nat → Nat
  | 0 => 0
  | 1 => 0x80
  | 2 => 0x800
  | _ => 4096

/-- The trail-byte loop of `is_icccm_utf8_string` (src/utils.cpp:112-119):
consume exactly `n` continuation bytes, folding them into `value`;
`none` when a byte is not of the form `10xxxxxx` or the input ends
early (the C loop then exits with `n != 0` and returns false). -/
def trail_bytes (value : Nat) : Nat → List Nat → Option Nat
  | 0, _ => some value
  | _ + 1, [] => none
  | n + 1, b :: rest =>
    if b &&& 0xC0 == 0x80 then
      trail_bytes ((value <<< 6) ||| (b &&& 0x3F)) n rest
    else
      none

/-- The outer loop of `is_icccm_utf8_string` (src/utils.cpp:71-137),
written with explicit fuel so that the recursion is structural.  Each
outer iteration of the C loop consumes at least one byte, so fuel equal
to the length of the input can never run out; the `0, _ :: _` branch is
unreachable for the wrapper below. -/
def utf8_loop : Nat → List Nat → Bool
  | _, [] => true
  | 0, _ :: _ => false
  | fuel + 1, c :: rest =>
    let step : Nat → Nat → Bool := fun v0 n =>
      match trail_bytes v0 n rest with
      | none => false
      | some value =>
        if value < min_value n then
          false
        else if (decide (0xD800 ≤ value) && decide (value ≤ 0xD8FF)) || decide (value > 0x10FFFF) then
          false
        else
          utf8_loop fuel (rest.drop n)
    if c &&& 0x80 == 0 then
      if (decide (c < 0x20) && (c != 10) && (c != 9)) || (c == 0x7F) then false
      else step c 0
    else if c &&& 0x40 == 0 then false
    else if c &&& 0x20 == 0 then step (c &&& 0x1F) 1
    else if c &&& 0x10 == 0 then step (c &&& 0x0F) 2
    else if c &&& 0x08 == 0 then step (c &&& 0x07) 3
    else false

/-- `is_icccm_utf8_string` (src/utils.cpp:71-137). -/
def is_icccm_utf8_string (data : List Nat) : Bool :=
  utf8_loop data.length data

/- ---------------------------------------------------------------------
   clipper.hpp: data model
   --------------------------------------------------------------------- -/

/-- The fields of `xcb_selection_request_event_t` used by the server. -/
structure SelReq where
  owner : Nat
  requestor : Nat
  selection : Nat
  target : Nat
  property : Nat
  time : Nat
deriving DecidableEq

/-- `Clipper::TransferState` (src/clipper.hpp:86-102).  The converted
view `(type, format, ptr, size)` is the type atom, the element format
in bits, and the byte buffer (whose length is the byte size).  The
field name keeps the spelling of the source. -/
structure TransferState where
  type : Nat
  format : Nat
  bytes : List Nat
  tranferred : Nat
deriving DecidableEq

/-- `TransferState::TRANSFER_PREINIT` =
`std::numeric_limits<std::size_t>::max()` (src/clipper.hpp:101). -/
def TRANSFER_PREINIT : Nat := 2 ^ 64 - 1

/-- Side effects the server performs through the X connection, in
program order.  `changeProperty` is a replace-mode property write
carrying `elemCount` elements of `format` bits; `bytes` is the raw byte
payload the server reads from the supplied pointer, namely
`elemCount * format / 8` bytes.  `incrAnnounce` is the replace-mode
write of the single 32-bit INCR size hint.  `subscribe`/`unsubscribe`
are the `ChangeWindowAttributes` event-mask updates, and
`selectionNotify` is the synthetic `SelectionNotify` of
`Clipper::SendFinishNotification` (src/clipper.cpp:332-346), which
mirrors the request fields. -/
inductive Action where
  | changeProperty (window prop type format elemCount : Nat) (bytes : List Nat)
  | incrAnnounce (window prop incrType sizeHint : Nat)
  | subscribe (window : Nat)
  | unsubscribe (window : Nat)
  | selectionNotify (requestor selection target time prop : Nat)
deriving DecidableEq

/- ---------------------------------------------------------------------
   clipper.cpp: transfer engine
   --------------------------------------------------------------------- -/

/-- `size_t` subtraction: `a - b` reduced modulo `2 ^ 64`. -/
def szSub (a b : Nat) : Nat :=
  (a + (2 ^ 64 - b % 2 ^ 64)) % 2 ^ 64

/-- The chunk computation of `Clipper::Transfer` (src/clipper.cpp:428-429):
`chunk_size = min(max_transfer_size_, size - transferred);`
`chunk_size -= (8 * chunk_size) % format;`
in `size_t` arithmetic. -/
def chunk_size (max fmt size tranferred : Nat) : Nat :=
  let c := min max (szSub size tranferred)
  szSub c ((8 * c) % fmt)

/-- One step of `Clipper::Transfer` (src/clipper.cpp:378-454) on the
transfer state `ts` for request `req`, with `max` =
`max_transfer_size_` and `incr` = `incr_atom_`.  Returns the updated
state, the `done` flag (the source returns `std::optional<bool>`; the
empty case only arises from X errors, which are outside the model),
and the actions performed. -/
def transferStep (max incr : Nat) (ts : TransferState) (req : SelReq) :
    TransferState × Bool × List Action :=
  let size := ts.bytes.length
  if ts.tranferred = TRANSFER_PREINIT then
    if size ≤ max then
      ({ ts with tranferred := size }, true,
        [Action.changeProperty req.requestor req.property ts.type ts.format
          (8 * size / ts.format) (ts.bytes.take (8 * size / ts.format * (ts.format / 8)))])
    else
      ({ ts with tranferred := 0 }, false,
        [Action.subscribe req.requestor,
         Action.incrAnnounce req.requestor req.property incr (min size (2 ^ 32 - 1)),
         Action.selectionNotify req.requestor req.selection req.target req.time req.property])
  else
    let chunk := chunk_size max ts.format size ts.tranferred
    let elems := 8 * chunk / ts.format
    let write := Action.changeProperty req.requestor req.property ts.type ts.format elems
      ((ts.bytes.drop ts.tranferred).take (elems * (ts.format / 8)))
    let ts' := { ts with tranferred := (ts.tranferred + chunk) % 2 ^ 64 }
    if ts.tranferred < size then
      (ts', false, [write])
    else
      (ts', true, [write, Action.unsubscribe req.requestor])

/-- The completion decision of `Clipper::ProceedRequest`
(src/clipper.cpp:497-501) together with `FinishRequestProcessing` for a
request without an `on_finish` callback (a top-level request):
`send_notification = transfer->second.tranferred <= max_transfer_size_`
after the step, and the notification mirrors the request fields. -/
def proceedFinish (max : Nat) (ts' : TransferState) (req : SelReq) : List Action :=
  if ts'.tranferred ≤ max then
    [Action.selectionNotify req.requestor req.selection req.target req.time req.property]
  else
    []

/- ---------------------------------------------------------------------
   clipper.cpp: request dispatch
   --------------------------------------------------------------------- -/

/-- Outcome of `Clipper::StartRequestProcessing`: either the request is
rejected (carrying the mutated request and the actions performed), or
it is dispatched to the handler registered for its target. -/
inductive StartResult where
  | rejected (req : SelReq) (acts : List Action)
  | handled (target : Nat)
deriving DecidableEq

/-- `Clipper::StartRequestProcessing` (src/clipper.cpp:362-376) for a
top-level request (its queue entry has no `on_finish` callback, as is
the case for every entry created from a `SelectionRequest` event in
`Clipper::Run`).  `handlerKeys` lists the keys of `handlers_`. -/
def startRequestProcessing (owner clipboard tstamp : Nat) (handlerKeys : List Nat)
    (req : SelReq) : StartResult :=
  if req.owner ≠ owner ∨ (req.time < tstamp ∧ req.time ≠ XCB_CURRENT_TIME) ∨
      req.selection ≠ clipboard ∨ ¬ handlerKeys.contains req.target then
    StartResult.rejected { req with property := XCB_ATOM_NONE }
      [Action.selectionNotify req.requestor req.selection req.target req.time XCB_ATOM_NONE]
  else
    StartResult.handled req.target

/- ---------------------------------------------------------------------
   clipper.cpp / clipper.hpp: targets and handler registration
   --------------------------------------------------------------------- -/

/-- The target names of `Clipper::required_targets`,
`Clipper::text_targets` and `Clipper::file_targets`
(src/clipper.hpp:116-139). -/
inductive Target where
  | TIMESTAMP
  | TARGETS
  | MULTIPLE
  | TEXT
  | STRING
  | UTF8_STRING
  | C_STRING
  | FILE_NAME
  | uriList
  | gnomeCopiedFiles
  | kdeCopiedFiles
  | mateCopiedFiles
  | nautilusClipboard
deriving DecidableEq

/-- All supported target names in one list (declaration order of the
three arrays in clipper.hpp; the concrete order is irrelevant because
`handlers_` is an unordered map and TARGETS sorts its output). -/
def allTargets : List Target :=
  [Target.TIMESTAMP, Target.TARGETS, Target.MULTIPLE, Target.TEXT, Target.STRING,
   Target.UTF8_STRING, Target.C_STRING, Target.FILE_NAME, Target.uriList,
   Target.gnomeCopiedFiles, Target.kdeCopiedFiles, Target.mateCopiedFiles,
   Target.nautilusClipboard]

/-- Model of atom interning: a fixed injective assignment of atom
identifiers to target names.  The concrete values are arbitrary
distinct non-`None` codes standing for the server-assigned atoms. -/
def atomOf : Target → Nat
  | Target.TIMESTAMP => 100
  | Target.TARGETS => 101
  | Target.MULTIPLE => 102
  | Target.TEXT => 103
  | Target.STRING => 104
  | Target.UTF8_STRING => 105
  | Target.C_STRING => 106
  | Target.FILE_NAME => 107
  | Target.uriList => 108
  | Target.gnomeCopiedFiles => 109
  | Target.kdeCopiedFiles => 110
  | Target.mateCopiedFiles => 111
  | Target.nautilusClipboard => 112

/-- `Clipper::text_validators` (src/clipper.hpp:141-145) combined with
the intern condition of the constructor (src/clipper.cpp:84):
`f == text_validators.end() || f->second(data)` — a text target with no
entry in the validator map passes trivially. -/
def textValidatorPasses (data : List Nat) : Target → Bool
  | Target.STRING => is_icccm_string data
  | Target.UTF8_STRING => is_icccm_utf8_string data
  | _ => true

/-- The set of interned target names after the constructor
(src/clipper.cpp:76-128): required targets always, text targets whose
validator passed, file targets when `is_file`.  Interning itself is
modelled as always succeeding (an intern failure is an external X
error). -/
def internedTarget (data : List Nat) (is_file : Bool) : Target → Bool
  | Target.TIMESTAMP => true
  | Target.TARGETS => true
  | Target.MULTIPLE => true
  | Target.TEXT => textValidatorPasses data Target.TEXT
  | Target.STRING => textValidatorPasses data Target.STRING
  | Target.UTF8_STRING => textValidatorPasses data Target.UTF8_STRING
  | Target.C_STRING => textValidatorPasses data Target.C_STRING
  | Target.FILE_NAME => is_file
  | Target.uriList => is_file
  | Target.gnomeCopiedFiles => is_file
  | Target.kdeCopiedFiles => is_file
  | Target.mateCopiedFiles => is_file
  | Target.nautilusClipboard => is_file

/-- Which targets end up with an entry in `handlers_` after
`Clipper::RegisterHandlers` (src/clipper.cpp:526-752): the three
required handlers unconditionally; `C_STRING`, `STRING`, `UTF8_STRING`
when interned; `TEXT` when a text mapping atom exists (one of
`UTF8_STRING`, `STRING`, `C_STRING` interned) and `TEXT` is interned;
`FILE_NAME` when both it and `C_STRING` are interned; the remaining
file targets when interned. -/
def handlersContain (data : List Nat) (is_file : Bool) : Target → Bool
  | Target.TIMESTAMP => true
  | Target.TARGETS => true
  | Target.MULTIPLE => true
  | Target.C_STRING => internedTarget data is_file Target.C_STRING
  | Target.STRING => internedTarget data is_file Target.STRING
  | Target.UTF8_STRING => internedTarget data is_file Target.UTF8_STRING
  | Target.TEXT =>
      (internedTarget data is_file Target.UTF8_STRING ||
        internedTarget data is_file Target.STRING ||
        internedTarget data is_file Target.C_STRING) &&
      internedTarget data is_file Target.TEXT
  | Target.FILE_NAME =>
      internedTarget data is_file Target.FILE_NAME &&
      internedTarget data is_file Target.C_STRING
  | Target.uriList => internedTarget data is_file Target.uriList
  | Target.gnomeCopiedFiles => internedTarget data is_file Target.gnomeCopiedFiles
  | Target.kdeCopiedFiles => internedTarget data is_file Target.kdeCopiedFiles
  | Target.mateCopiedFiles => internedTarget data is_file Target.mateCopiedFiles
  | Target.nautilusClipboard => internedTarget data is_file Target.nautilusClipboard

/-- The atoms of all registered handlers (the key set of `handlers_`). -/
def registeredAtoms (data : List Nat) (is_file : Bool) : List Nat :=
  (allTargets.filter fun t => handlersContain data is_file t).map atomOf

/-- The TARGETS conversion (src/clipper.cpp:542-552): copy the keys of
`handlers_`, sort them ascending with `std::sort`, and return an
`ATOM`-typed format-32 array of `handlers_.size()` atoms.  `std::sort`
is modelled by insertion sort; only the sorted-permutation contract
matters.  The result is `(type, format, elements)`. -/
def targetsData (data : List Nat) (is_file : Bool) : Nat × Nat × List Nat :=
  (XCB_ATOM_ATOM, 32, List.insertionSort (· ≤ ·) (registeredAtoms data is_file))

/-- The inner conversion of `as_is_convert` (src/clipper.cpp:651-654):
a borrowed view of the raw payload with type `req->target` and
format 8, as `(type, format, bytes)`. -/
def as_is_view (data : List Nat) (req : SelReq) : Nat × Nat × List Nat :=
  (req.target, 8, data)

/- ---------------------------------------------------------------------
   clipper.cpp: MULTIPLE expansion
   --------------------------------------------------------------------- -/

/-- The format probe of the MULTIPLE convert (src/clipper.cpp:583):
subrequests must come as format 32, type `ATOM_PAIR`, with a byte size
that is a multiple of `2 * sizeof(xcb_atom_t)` = 8. -/
def multipleCheckFormat (atomPair propFormat propType propSize : Nat) : Bool :=
  (propFormat == 32) && (propType == atomPair) && (propSize % 8 == 0)

/-- `init_subreq` (src/clipper.cpp:600-623) acting on the pair buffer
`st.1` (the flat atom list `[t1, p1, t2, p2, ...]`) and the queue-front
accumulator `st.2`, for the pair starting at index `i`.  A pair whose
property slot is `None`, or whose target equals the parent target while
a transfer for `(requestor, property)` already exists, has its property
slot overwritten with `None` and is not enqueued; otherwise the pair is
prepended to the requestor's queue (modelled by consing the
`(target, property)` pair onto the accumulator). -/
def initSubreq (parentTarget requestor : Nat) (transferKeys : List (Nat × Nat))
    (st : List Nat × List (Nat × Nat)) (i : Nat) : List Nat × List (Nat × Nat) :=
  let t := st.1.getD i 0
  let p := st.1.getD (i + 1) 0
  if p = XCB_ATOM_NONE ∨ (t = parentTarget ∧ transferKeys.contains (requestor, p)) then
    (st.1.set (i + 1) XCB_ATOM_NONE, st.2)
  else
    (st.1, (t, p) :: st.2)

/-- The enqueue loop of the MULTIPLE convert (src/clipper.cpp:626-629):
`init_subreq` is applied to pair indices `n - 2, n - 4, ..., 0` in that
(descending) order; since every enqueue is an `emplace_front`, the
resulting queue front ends up in ascending pair order. -/
def expandAux (parentTarget requestor : Nat) (transferKeys : List (Nat × Nat)) :
    Nat → List Nat × List (Nat × Nat) → List Nat × List (Nat × Nat)
  | 0, st => st
  | k + 1, st =>
      expandAux parentTarget requestor transferKeys k
        (initSubreq parentTarget requestor transferKeys st (2 * k))

/-- The pair expansion of the MULTIPLE handler: given the parent
request's target and requestor, the current transfer-state key set, and
the flat `ATOM_PAIR` buffer, produce the (possibly mutated) write-back
buffer and the sub-request pairs now sitting at the front of the
requestor's queue, in queue order.  With zero pairs the callback
returns before the loop (src/clipper.cpp:593-596) and nothing is
enqueued, which coincides with running the loop zero times. -/
def multipleExpand (parentTarget requestor : Nat) (transferKeys : List (Nat × Nat))
    (pairs : List Nat) : List Nat × List (Nat × Nat) :=
  expandAux parentTarget requestor transferKeys (pairs.length / 2) (pairs, [])

/- ---------------------------------------------------------------------
   main.cpp
   --------------------------------------------------------------------- -/

/-- `ErrorType` (src/main.cpp:15-20). -/
def USAGE_ERROR : Nat := 1

/-- `ErrorType` (src/main.cpp:15-20). -/
def FILE_ERROR : Nat := 2

/-- `ErrorType` (src/main.cpp:15-20). -/
def RUNTIME_ERROR : Nat := 3

/-- How `main` proceeds after argument handling: report usage and exit,
or serve the operand as a literal string, as a canonicalized file path
(`-f`), or as file contents (`-c`). -/
inductive MainOutcome where
  | usage
  | runString (s : String)
  | runFile (s : String)
  | runContent (s : String)
deriving DecidableEq

/-- One option cluster (an argument of the form `-xyz...`) processed by
`getopt(argc, argv, "fc")`: each character sets `is_file` or
`is_content`; any other character makes `getopt` return an unknown
option, which `main` turns into a usage error (src/main.cpp:64-84). -/
def optCluster (chars : List Char) (f c : Bool) : Option (Bool × Bool) :=
  match chars with
  | [] => some (f, c)
  | ch :: rest =>
    if ch = 'f' then optCluster rest true c
    else if ch = 'c' then optCluster rest f true
    else none

/-- The `getopt` loop of `main` (src/main.cpp:63-84) over the arguments
after the program name, modelling the default GNU behaviour: option
clusters may appear anywhere and operands are permuted behind them in
their original relative order; a lone `-` is an operand; `--` stops
option parsing.  `none` means an unknown option was seen (usage
error); otherwise the result is `(is_file, is_content, operands)`,
with the operands in the order `argv[optind..]` has after the loop. -/
def getoptLoop : List String → Bool → Bool → List String → Option (Bool × Bool × List String)
  | [], f, c, ops => some (f, c, ops.reverse)
  | a :: rest, f, c, ops =>
    match a.toList with
    | ['-', '-'] => some (f, c, ops.reverse ++ rest)
    | '-' :: ch :: chs =>
      match optCluster (ch :: chs) f c with
      | none => none
      | some (f', c') => getoptLoop rest f' c' ops
    | _ => getoptLoop rest f c (a :: ops)

/-- Argument handling of `main` (src/main.cpp:51-98).  `args` is
`argv[1..]`.  With exactly one argument (`argc == 2`) the argument is
served as a literal string without ever consulting `getopt`
(src/main.cpp:57-59).  Otherwise the option loop runs; a missing
operand or the conflicting `-f -c` combination is a usage error, and
the first operand is served according to the flags. -/
def mainParse (args : List String) : MainOutcome :=
  match args with
  | [s] => MainOutcome.runString s
  | _ =>
    match getoptLoop args false false [] with
    | none => MainOutcome.usage
    | some (f, c, ops) =>
      match ops with
      | [] => MainOutcome.usage
      | s :: _ =>
        if f && c then MainOutcome.usage
        else if c then MainOutcome.runContent s
        else if f then MainOutcome.runFile s
        else MainOutcome.runString s

/-- The exit code of `main` (src/main.cpp:51-168) as a function of the
parse outcome and two oracles: `file_error` is true when the file
system path taken for the outcome fails (`open`/`fstat`/`read`/`mmap`
for `-c`, `realpath` for `-f`), and `runtime_error` is true when the
`Clipper` constructor or `Run` throws.  A literal-string invocation
performs no file access, so only the runtime oracle applies to it. -/
def mainExitCode (o : MainOutcome) (file_error runtime_error : Bool) : Nat :=
  match o with
  | MainOutcome.usage => USAGE_ERROR
  | MainOutcome.runString _ => if runtime_error then RUNTIME_ERROR else 0
  | MainOutcome.runFile _ =>
      if file_error then FILE_ERROR else if runtime_error then RUNTIME_ERROR else 0
  | MainOutcome.runContent _ =>
      if file_error then FILE_ERROR else if runtime_error then RUNTIME_ERROR else 0

/- ---------------------------------------------------------------------
   Helper lemmas
   --------------------------------------------------------------------- -/

theorem szSub_self (a : Nat) : szSub a a = 0 := by
  unfold szSub
  have e : (2 : Nat) ^ 64 = 18446744073709551616 := by norm_num
  rw [e]
  omega

theorem chunk_size_at_end (max fmt size : Nat) : chunk_size max fmt size size = 0 := by
  unfold chunk_size
  rw [szSub_self]
  simp [szSub]

/- ---------------------------------------------------------------------
   Claims
   --------------------------------------------------------------------- -/

/-- C10: `is_icccm_string(data)` returns true if and only if every byte
of `data` lies in 0x20..0x7E or 0xA0..0xFF or is `\n` (10) or `\t` (9);
the empty payload is accepted, and any payload containing DEL (0x7F) or
a C1 control byte 0x80..0x9F is rejected, hence not advertised under
the STRING target. -/
theorem is_icccm_string_characterization (data : List Nat)
    (hbytes : ∀ c ∈ data, c < 256) :
    (is_icccm_string data = true ↔
      ∀ c ∈ data, (0x20 ≤ c ∧ c ≤ 0x7E) ∨ (0xA0 ≤ c ∧ c ≤ 0xFF) ∨ c = 10 ∨ c = 9) ∧
    is_icccm_string [] = true ∧
    (∀ c ∈ data, (c = 0x7F ∨ (0x80 ≤ c ∧ c ≤ 0x9F)) →
      is_icccm_string data = false ∧
      ∀ is_file, handlersContain data is_file Target.STRING = false) := by
  refine ⟨?_, by decide, ?_⟩
  · rw [is_icccm_string, List.all_eq_true]
    constructor
    · intro h c hc
      have hb := hbytes c hc
      have h2 := h c hc
      simp only [Bool.or_eq_true, Bool.and_eq_true, decide_eq_true_eq, beq_iff_eq] at h2
      omega
    · intro h c hc
      have h2 := h c hc
      simp only [Bool.or_eq_true, Bool.and_eq_true, decide_eq_true_eq, beq_iff_eq]
      omega
  · intro c hc hbad
    have hfalse : is_icccm_string data = false := by
      rw [Bool.eq_false_iff]
      intro hT
      rw [is_icccm_string, List.all_eq_true] at hT
      have h2 := hT c hc
      simp only [Bool.or_eq_true, Bool.and_eq_true, decide_eq_true_eq, beq_iff_eq] at h2
      omega
    refine ⟨hfalse, ?_⟩
    intro is_file
    simpa [handlersContain, internedTarget, textValidatorPasses] using hfalse

theorem is_icccm_string_characterization_witness : is_icccm_string [0x7F] = false :=
  ((is_icccm_string_characterization [0x7F] (by decide)).2.2 0x7F (by decide)
    (Or.inl rfl)).1

/-- C5: the target-to-handler map contains each of the text targets
TEXT, STRING, UTF8_STRING, C_STRING exactly when the payload passed
that target's validation (targets without a validator pass trivially),
and contains each file target exactly when `is_file` is true. -/
theorem handler_map_text_and_file_targets (data : List Nat) (is_file : Bool) :
    (handlersContain data is_file Target.TEXT = textValidatorPasses data Target.TEXT) ∧
    (handlersContain data is_file Target.STRING = textValidatorPasses data Target.STRING) ∧
    (handlersContain data is_file Target.UTF8_STRING =
      textValidatorPasses data Target.UTF8_STRING) ∧
    (handlersContain data is_file Target.C_STRING =
      textValidatorPasses data Target.C_STRING) ∧
    (handlersContain data is_file Target.FILE_NAME = is_file) ∧
    (handlersContain data is_file Target.uriList = is_file) ∧
    (handlersContain data is_file Target.gnomeCopiedFiles = is_file) ∧
    (handlersContain data is_file Target.kdeCopiedFiles = is_file) ∧
    (handlersContain data is_file Target.mateCopiedFiles = is_file) ∧
    (handlersContain data is_file Target.nautilusClipboard = is_file) := by
  refine ⟨?_, rfl, rfl, rfl, ?_, rfl, rfl, rfl, rfl, rfl⟩
  · simp [handlersContain, internedTarget, textValidatorPasses]
  · simp [handlersContain, internedTarget, textValidatorPasses]

/-- C8: the TARGETS conversion produces an ATOM-typed, format-32 array
whose elements are exactly the atoms of all registered handlers, sorted
ascending, and always include TIMESTAMP, TARGETS and MULTIPLE. -/
theorem targets_conversion_sorted (data : List Nat) (is_file : Bool) :
    (targetsData data is_file).1 = XCB_ATOM_ATOM ∧
    (targetsData data is_file).2.1 = 32 ∧
    List.Sorted (· ≤ ·) (targetsData data is_file).2.2 ∧
    List.Perm (targetsData data is_file).2.2 (registeredAtoms data is_file) ∧
    atomOf Target.TIMESTAMP ∈ (targetsData data is_file).2.2 ∧
    atomOf Target.TARGETS ∈ (targetsData data is_file).2.2 ∧
    atomOf Target.MULTIPLE ∈ (targetsData data is_file).2.2 := by
  have hperm : List.Perm (List.insertionSort (· ≤ ·) (registeredAtoms data is_file))
      (registeredAtoms data is_file) :=
    List.perm_insertionSort (· ≤ ·) (registeredAtoms data is_file)
  have hmem : ∀ t : Target, t ∈ allTargets → handlersContain data is_file t = true →
      atomOf t ∈ (targetsData data is_file).2.2 := by
    intro t ht hh
    exact hperm.mem_iff.mpr (List.mem_map_of_mem atomOf (List.mem_filter_of_mem ht hh))
  refine ⟨rfl, rfl, ?_, hperm, ?_, ?_, ?_⟩
  · exact List.sorted_insertionSort (· ≤ ·) (registeredAtoms data is_file)
  · exact hmem Target.TIMESTAMP (by simp [allTargets]) rfl
  · exact hmem Target.TARGETS (by simp [allTargets]) rfl
  · exact hmem Target.MULTIPLE (by simp [allTargets]) rfl

/-- C9: for a payload accepted by the UTF-8 validator, the UTF8_STRING
target has a registered handler, the text-as-is conversion is an
identity view of the raw payload with type `req.target` and format 8,
and a single-shot transfer writes exactly the payload bytes to the
requestor's property. -/
theorem utf8_round_trip (data : List Nat) (is_file : Bool) (req : SelReq) (max incr : Nat)
    (hvalid : is_icccm_utf8_string data = true)
    (hsize : data.length ≤ max) :
    handlersContain data is_file Target.UTF8_STRING = true ∧
    as_is_view data req = (req.target, 8, data) ∧
    transferStep max incr ⟨req.target, 8, data, TRANSFER_PREINIT⟩ req =
      (⟨req.target, 8, data, data.length⟩, true,
        [Action.changeProperty req.requestor req.property req.target 8 data.length data]) := by
  refine ⟨?_, rfl, ?_⟩
  · simpa [handlersContain, internedTarget, textValidatorPasses] using hvalid
  · simp [transferStep, hsize, Nat.mul_div_cancel_left data.length (by norm_num : (0 : Nat) < 8)]

theorem utf8_round_trip_witness :
    transferStep 100 99 ⟨105, 8, [104, 105], TRANSFER_PREINIT⟩
        (⟨1, 7, 2, 105, 50, 5⟩ : SelReq) =
      (⟨105, 8, [104, 105], 2⟩, true, [Action.changeProperty 7 50 105 8 2 [104, 105]]) :=
  (utf8_round_trip [104, 105] false ⟨1, 7, 2, 105, 50, 5⟩ 100 99 (by decide) (by decide)).2.2

/-- C2: whenever a transfer step returns done, the completion logic of
`ProceedRequest` sends a `SelectionNotify` if and only if the transfer
was single-shot (total converted size at most `max_transfer_size_`);
an INCR transfer sends its notification immediately after the INCR
announcement property write, before any data chunk, and its initial
step is not done. -/
theorem transfer_done_notification (max incr : Nat) (ts : TransferState) (req : SelReq)
    (hstate : ts.tranferred = TRANSFER_PREINIT ∨
      (ts.tranferred = ts.bytes.length ∧ max < ts.bytes.length ∧
        ts.bytes.length < 2 ^ 64)) :
    ((transferStep max incr ts req).2.1 = true →
      (Action.selectionNotify req.requestor req.selection req.target req.time req.property ∈
          proceedFinish max (transferStep max incr ts req).1 req ↔
        ts.bytes.length ≤ max)) ∧
    (ts.tranferred = TRANSFER_PREINIT → max < ts.bytes.length →
      (transferStep max incr ts req).2.1 = false ∧
      (transferStep max incr ts req).2.2 =
        [Action.subscribe req.requestor,
         Action.incrAnnounce req.requestor req.property incr
           (min ts.bytes.length (2 ^ 32 - 1)),
         Action.selectionNotify req.requestor req.selection req.target req.time
           req.property]) := by
  rcases hstate with hP | ⟨h1, h2, h3⟩
  · by_cases hle : ts.bytes.length ≤ max
    · constructor
      · intro _
        simp [transferStep, hP, hle, proceedFinish]
      · intro _ hlt
        omega
    · constructor
      · intro hdone
        exfalso
        simp [transferStep, hP, hle] at hdone
      · intro _ _
        simp [transferStep, hP, hle]
  · by_cases hP : ts.tranferred = TRANSFER_PREINIT
    · have hle : ¬ ts.bytes.length ≤ max := by omega
      constructor
      · intro hdone
        exfalso
        simp [transferStep, hP, hle] at hdone
      · intro _ _
        simp [transferStep, hP, hle]
    · constructor
      · intro _
        have hchunk : chunk_size max ts.format ts.bytes.length ts.tranferred = 0 := by
          rw [h1]
          exact chunk_size_at_end max ts.format ts.bytes.length
        have hchunk2 : chunk_size max ts.format ts.bytes.length ts.bytes.length = 0 :=
          chunk_size_at_end max ts.format ts.bytes.length
        have hle : ¬ ts.bytes.length ≤ max := by omega
        have hP' : ¬ ts.bytes.length = TRANSFER_PREINIT := h1 ▸ hP
        have h3' : ts.bytes.length < 18446744073709551616 := by
          have e : (2 : Nat) ^ 64 = 18446744073709551616 := by norm_num
          omega
        simp only [transferStep, hP, hP', hchunk2, h1, proceedFinish, hle, if_false,
          ite_false, Nat.add_zero]
        have hmod : ts.bytes.length % 18446744073709551616 = ts.bytes.length :=
          Nat.mod_eq_of_lt h3'
        simp [hmod, hle, lt_irrefl]
      · intro hPP _
        exact absurd hPP hP

theorem transfer_done_notification_witness :
    Action.selectionNotify 7 2 105 5 50 ∈
      proceedFinish 10
        (transferStep 10 99 ⟨105, 8, [1, 2, 3], TRANSFER_PREINIT⟩
          (⟨1, 7, 2, 105, 50, 5⟩ : SelReq)).1
        (⟨1, 7, 2, 105, 50, 5⟩ : SelReq) :=
  ((transfer_done_notification 10 99 ⟨105, 8, [1, 2, 3], TRANSFER_PREINIT⟩
      ⟨1, 7, 2, 105, 50, 5⟩ (Or.inl rfl)).1 (by decide)).mpr (by decide)

/-- C3: the claim states that the chunk reduction makes `8 * chunk` a
multiple of the element format and never wraps.  Evaluating the chunk
computation of `Clipper::Transfer` (src/clipper.cpp:428-429) refutes
this for format 32: with `max_transfer_size_ = 131070` (as derived from
a maximum request length of 65535 words), a 131080-byte format-32
value, and nothing transferred yet, the code subtracts
`(8 * chunk) % 32` instead of `chunk % 4` and produces chunk 131054,
whose bit count 8 * 131054 is congruent to 16 modulo 32 — a split
element; and when `size - transferred` is 6 the `size_t` subtraction
wraps around to `2 ^ 64 - 10`. -/
theorem chunk_size_split_and_wrap :
    chunk_size 131070 32 131080 0 = 131054 ∧
    (8 * chunk_size 131070 32 131080 0) % 32 = 16 ∧
    chunk_size 131070 32 131078 131072 = 2 ^ 64 - 10 := by decide

/-- C6: a MULTIPLE request whose `ATOM_PAIR` property holds zero pairs
passes the format check, enqueues no sub-requests, transfers an empty
write-back to the request's property as a single-shot transfer that
completes immediately, and a `SelectionNotify` is sent.  The hypothesis
records the handler's entry guard (src/clipper.cpp:558): the request
property is not `None` on this path. -/
theorem multiple_zero_pairs (max incr atomPair : Nat) (transferKeys : List (Nat × Nat))
    (req : SelReq) (hprop : req.property ≠ XCB_ATOM_NONE) :
    multipleCheckFormat atomPair 32 atomPair 0 = true ∧
    multipleExpand req.target req.requestor transferKeys [] = ([], []) ∧
    transferStep max incr ⟨atomPair, 32, [], TRANSFER_PREINIT⟩ req =
      (⟨atomPair, 32, [], 0⟩, true,
        [Action.changeProperty req.requestor req.property atomPair 32 0 []]) ∧
    proceedFinish max ⟨atomPair, 32, [], 0⟩ req =
      [Action.selectionNotify req.requestor req.selection req.target req.time
        req.property] := by
  refine ⟨by simp [multipleCheckFormat], rfl, ?_, by simp [proceedFinish]⟩
  simp [transferStep]

theorem multiple_zero_pairs_witness :
    transferStep 10 99 ⟨20, 32, [], TRANSFER_PREINIT⟩ (⟨1, 7, 2, 102, 50, 5⟩ : SelReq) =
      (⟨20, 32, [], 0⟩, true, [Action.changeProperty 7 50 20 32 0 []]) :=
  (multiple_zero_pairs 10 99 20 [] ⟨1, 7, 2, 102, 50, 5⟩ (by decide)).2.2.1

/-- C7: a request whose time is strictly below the ownership timestamp
and is not `CurrentTime` — or whose owner, selection or target fails
the preconditions of `StartRequestProcessing` — is rejected: its
property is set to `None`, the only action performed is a
`SelectionNotify` carrying property `None`, and in particular no
property write to the requestor happens. -/
theorem stale_or_invalid_request_rejected (owner clipboard tstamp : Nat)
    (handlerKeys : List Nat) (req : SelReq)
    (h : req.owner ≠ owner ∨ (req.time < tstamp ∧ req.time ≠ XCB_CURRENT_TIME) ∨
      req.selection ≠ clipboard ∨ ¬ handlerKeys.contains req.target) :
    startRequestProcessing owner clipboard tstamp handlerKeys req =
      StartResult.rejected { req with property := XCB_ATOM_NONE }
        [Action.selectionNotify req.requestor req.selection req.target req.time
          XCB_ATOM_NONE] ∧
    ∀ w p ty fmt n b, Action.changeProperty w p ty fmt n b ∉
      [Action.selectionNotify req.requestor req.selection req.target req.time
        XCB_ATOM_NONE] := by
  constructor
  · unfold startRequestProcessing
    rw [if_pos h]
  · intro w p ty fmt n b hmem
    simp at hmem

theorem stale_or_invalid_request_rejected_witness :
    startRequestProcessing 1 2 100 [101, 102] (⟨1, 7, 2, 101, 50, 40⟩ : SelReq) =
      StartResult.rejected ⟨1, 7, 2, 101, 0, 40⟩ [Action.selectionNotify 7 2 101 40 0] :=
  (stale_or_invalid_request_rejected 1 2 100 [101, 102] ⟨1, 7, 2, 101, 50, 40⟩
    (Or.inr (Or.inl ⟨by decide, by decide⟩))).1

/-- C1: the claim states that a MULTIPLE pair `(MULTIPLE, P)` naming
the parent's own property is rejected (marked `None`) without enqueue.
Evaluating the expansion refutes this: because `ProceedRequest`
(src/clipper.cpp:460-486) inserts the parent's transfer-state entry
only after the convert callback has run, the transfer key set never
contains `(requestor, P)` while `init_subreq` executes, so the
self-referencing pair is enqueued and its write-back slot stays `P`
(first conjunct, with parent target 102, property 50, requestor 7 and
the empty key set the parent expansion actually sees).  The second
conjunct shows the coded loop rule does reject the pair when the key
set does contain `(requestor, P)`, which is what the spec assumed. -/
theorem multiple_self_pair_not_rejected :
    multipleExpand 102 7 [] [102, 50] = ([102, 50], [(102, 50)]) ∧
    multipleExpand 102 7 [(7, 50)] [102, 50] = ([102, XCB_ATOM_NONE], []) := by decide

/-- C4 counterexample: the claim calls `xclipp -f` (no FILE operand) a
usage error exiting 1, but `main` (src/main.cpp:57-59) treats any
two-word invocation as `xclipp STRING` without consulting `getopt`,
so `-f` is served as a literal string and the process does not exit
with the usage code. -/
theorem dash_f_served_as_string :
    mainParse [("-f")] = MainOutcome.runString ("-f") ∧
    mainExitCode (mainParse [("-f")]) false false = 0 ∧
    mainExitCode (mainParse [("-f")]) false false ≠ USAGE_ERROR := by decide

/-- C4 (amended): with exactly one argument the operand is always
served as a literal string, even when it looks like an option;
otherwise a usage error — unknown option, missing operand, or `-f`
combined with `-c` — exits with code 1; a file error exits 2, a
runtime error 3, and a clean run 0. -/
theorem main_exit_codes (args : List String) (s : String) (fe re : Bool) :
    mainParse [s] = MainOutcome.runString s ∧
    (mainParse args = MainOutcome.usage → mainExitCode (mainParse args) fe re = USAGE_ERROR) ∧
    (args.length ≠ 1 → getoptLoop args false false [] = none →
      mainParse args = MainOutcome.usage) ∧
    (∀ f c, args.length ≠ 1 → getoptLoop args false false [] = some (f, c, []) →
      mainParse args = MainOutcome.usage) ∧
    (∀ ops, args.length ≠ 1 → getoptLoop args false false [] = some (true, true, ops) →
      mainParse args = MainOutcome.usage) ∧
    mainExitCode (MainOutcome.runFile s) true re = FILE_ERROR ∧
    mainExitCode (MainOutcome.runContent s) true re = FILE_ERROR ∧
    mainExitCode (MainOutcome.runFile s) false true = RUNTIME_ERROR ∧
    mainExitCode (MainOutcome.runContent s) false true = RUNTIME_ERROR ∧
    mainExitCode (MainOutcome.runString s) fe true = RUNTIME_ERROR ∧
    mainExitCode (MainOutcome.runString s) fe false = 0 ∧
    mainExitCode (MainOutcome.runFile s) false false = 0 ∧
    mainExitCode (MainOutcome.runContent s) false false = 0 := by
  refine ⟨rfl, ?_, ?_, ?_, ?_, rfl, rfl, rfl, rfl, rfl, rfl, rfl, rfl⟩
  · intro h
    rw [h]
    rfl
  · intro hlen hnone
    match args, hlen with
    | [], _ => simp [mainParse, getoptLoop]
    | a :: b :: t, _ =>
      simp only [mainParse]
      rw [hnone]
  · intro f c hlen hsome
    match args, hlen with
    | [], _ => simp [mainParse, getoptLoop]
    | a :: b :: t, _ =>
      simp only [mainParse]
      rw [hsome]
  · intro ops hlen hsome
    match args, hlen with
    | [], _ => simp [mainParse, getoptLoop]
    | a :: b :: t, _ =>
      simp only [mainParse]
      rw [hsome]
      cases ops <;> simp

theorem main_exit_codes_witness :
    mainParse [("-q"), ("z")] = MainOutcome.usage :=
  (main_exit_codes [("-q"), ("z")] ("z") false false).2.2.1 (by decide) (by decide)

end Xclipp
